import Mathlib

/-!
Shallow embedding of the YAML-driven page-composition pipeline of the
luna-landing startup-continuity website template: the component registry
and the page service (shared-navigation and shared-theme loading, the
header and footer merge, shared per-type style application, structural
validation), together with the theme and variant style tables.

File reads are modelled as Except-valued inputs handed to the loader;
JavaScript truthiness on optional string fields is modelled explicitly.
-/

namespace Luna

/-- Truthiness of an optional string field as JavaScript sees it:
absent, null and the empty string are falsy. -/
def strTruthy : Option String → Bool
  | none => false
  | some s => s != ""

/-- Opaque YAML payload values carried through the pipeline untouched
(component content and layout blocks, structured data). -/
inductive Yaml where
  | str : String → Yaml
  | num : Int → Yaml
  | boolVal : Bool → Yaml
  | nullVal : Yaml
  | arr : List Yaml → Yaml
  | obj : List (String × Yaml) → Yaml

/-- The style block of a component config: optional variant and theme names. -/
structure StyleConfig where
  variant : Option String
  theme : Option String

/-- A component config: optional layout block, optional style block,
content payload (never inspected by the loader or validator). -/
structure ComponentConfig where
  layout : Option Yaml
  style : Option StyleConfig
  content : Option Yaml

/-- One placed component instance in a page document. -/
structure PageComponent where
  type : Option String
  id : Option String
  enabled : Option Bool
  config : Option ComponentConfig

/-- The meta block of a page document. -/
structure MetaConfig where
  title : Option String
  description : Option String
  lang : Option String
  charset : Option String
  ldJson : Option Yaml

/-- A parsed page document. -/
structure PageData where
  meta : Option MetaConfig
  layout : Option Yaml
  header : Option PageComponent
  components : Option (List PageComponent)
  footer : Option PageComponent

/-- A parsed shared navigation document. -/
structure SharedNav where
  header : Option PageComponent
  footer : Option PageComponent

/-- One entry of the componentThemes map of the shared theme document. -/
structure ComponentThemeEntry where
  variant : Option String
  theme : Option String

/-- The global block of the shared theme document (parsed, never applied). -/
structure GlobalThemeConfig where
  defaultTheme : Option String
  defaultVariant : Option String

/-- A parsed shared theme document. -/
structure ThemeConfig where
  global : Option GlobalThemeConfig
  componentThemes : Option (List (String × ComponentThemeEntry))

/-- Key lookup in an object modelled as an association list. -/
def lookupField {α : Type} (l : List (String × α)) (k : String) : Option α :=
  (l.find? (fun p => p.1 == k)).map Prod.snd

/-- The renderable units the component registry binds type names to
(Astro section components, opaque to this pipeline). -/
inductive Renderable where
  | Hero | Services | Adventajes | Brands | Pricing | Header | Footer | FAQ
  | CallToAction | Testimonials | Stats | Steps | Team | ContactForm | Newsletter
  | ContentGrid | Features2 | Content | LogoCloud | Comparison | Gallery
deriving DecidableEq

/-- The component registry: the fixed mapping from type names to renderables,
in declaration order of the source object literal. -/
def ComponentRegistry : List (String × Renderable) :=
  [("Hero", .Hero), ("Services", .Services), ("Adventajes", .Adventajes),
   ("Brands", .Brands), ("Pricing", .Pricing), ("Header", .Header),
   ("Footer", .Footer), ("FAQ", .FAQ), ("CallToAction", .CallToAction),
   ("Testimonials", .Testimonials), ("Stats", .Stats), ("Steps", .Steps),
   ("Team", .Team), ("ContactForm", .ContactForm), ("Newsletter", .Newsletter),
   ("ContentGrid", .ContentGrid), ("Features2", .Features2), ("Content", .Content),
   ("LogoCloud", .LogoCloud), ("Comparison", .Comparison), ("Gallery", .Gallery)]

/-- The key set of the registry, in declaration order. -/
def registryKeys : List String := ComponentRegistry.map Prod.fst

/-- The property names every plain object literal inherits from
Object.prototype: bracket access on the registry and the style tables finds
these truthy members, and the in operator reports them, even though they
are not own entries. -/
def objectPrototypeKeys : List String :=
  ["constructor", "hasOwnProperty", "isPrototypeOf", "propertyIsEnumerable",
   "toLocaleString", "toString", "valueOf", "__proto__",
   "__defineGetter__", "__defineSetter__", "__lookupGetter__", "__lookupSetter__"]

/-- Membership test with the in operator on the registry object: true for
own registry keys and for every inherited Object.prototype property
name. -/
def isValidComponentType (t : String) : Bool :=
  (lookupField ComponentRegistry t).isSome || objectPrototypeKeys.contains t

/-- The error message thrown for a type bracket access finds nothing for,
listing every registered type name. -/
def unknownTypeMsg (t : String) : String :=
  "Component type \"" ++ t ++ "\" not found in registry. Available types: " ++
    String.intercalate ", " registryKeys

/-- What bracket access on the registry object can hand back: a registered
renderable, or a truthy member inherited from Object.prototype. -/
inductive RegistryHit where
  | renderable : Renderable → RegistryHit
  | inherited : String → RegistryHit
deriving DecidableEq

/-- Registry resolution: bracket access on the registry object followed by
a falsiness guard, so a registered type yields its renderable, an
Object.prototype property name yields the truthy inherited member without
an error, and only a name neither finds throws the unknown-component-type
error. -/
def getComponent (t : String) : Except String RegistryHit :=
  match lookupField ComponentRegistry t with
  | some c => .ok (.renderable c)
  | none =>
    if objectPrototypeKeys.contains t then .ok (.inherited t)
    else .error (unknownTypeMsg t)

/-- The color palette of a theme. -/
structure ThemeColors where
  background : String
  backgroundGradient : Option String
  text : String
  textSecondary : String
  accent : String
  accentHover : String
  border : String
  cardBackground : Option String
deriving DecidableEq

/-- A named theme. -/
structure Theme where
  name : String
  colors : ThemeColors
deriving DecidableEq

/-- The default theme palette. -/
def defaultTheme : Theme :=
  { name := "default",
    colors := { background := "#FFFFFF", backgroundGradient := none,
                text := "#161925", textSecondary := "#6B7280",
                accent := "#1D4ED8", accentHover := "#1E40AF",
                border := "#E5E7EB", cardBackground := some "#F9FAFB" } }

/-- The ocean theme palette. -/
def oceanTheme : Theme :=
  { name := "ocean",
    colors := { background := "#0C4A6E",
                backgroundGradient := some "linear-gradient(135deg, #0C4A6E 0%, #0369A1 100%)",
                text := "#FFFFFF", textSecondary := "#BAE6FD",
                accent := "#38BDF8", accentHover := "#0EA5E9",
                border := "#075985", cardBackground := some "#164E63" } }

/-- The sunset theme palette. -/
def sunsetTheme : Theme :=
  { name := "sunset",
    colors := { background := "#7C2D12",
                backgroundGradient := some "linear-gradient(135deg, #7C2D12 0%, #DC2626 50%, #F59E0B 100%)",
                text := "#FFFFFF", textSecondary := "#FED7AA",
                accent := "#FB923C", accentHover := "#F97316",
                border := "#9A3412", cardBackground := some "#92400E" } }

/-- The forest theme palette. -/
def forestTheme : Theme :=
  { name := "forest",
    colors := { background := "#14532D",
                backgroundGradient := some "linear-gradient(135deg, #14532D 0%, #15803D 100%)",
                text := "#FFFFFF", textSecondary := "#BBF7D0",
                accent := "#4ADE80", accentHover := "#22C55E",
                border := "#166534", cardBackground := some "#1A5E3A" } }

/-- The midnight theme palette. -/
def midnightTheme : Theme :=
  { name := "midnight",
    colors := { background := "#1E1B4B",
                backgroundGradient := some "linear-gradient(135deg, #1E1B4B 0%, #312E81 100%)",
                text := "#FFFFFF", textSecondary := "#C4B5FD",
                accent := "#A78BFA", accentHover := "#8B5CF6",
                border := "#4C1D95", cardBackground := some "#2E1065" } }

/-- The lavender theme palette. -/
def lavenderTheme : Theme :=
  { name := "lavender",
    colors := { background := "#F5F3FF",
                backgroundGradient := some "linear-gradient(135deg, #F5F3FF 0%, #EDE9FE 100%)",
                text := "#581C87", textSecondary := "#7C3AED",
                accent := "#9333EA", accentHover := "#7C3AED",
                border := "#DDD6FE", cardBackground := some "#FFFFFF" } }

/-- The fixed theme table, in declaration order. -/
def themes : List (String × Theme) :=
  [("default", defaultTheme), ("ocean", oceanTheme), ("sunset", sunsetTheme),
   ("forest", forestTheme), ("midnight", midnightTheme), ("lavender", lavenderTheme)]

/-- What the theme lookup can hand back: a palette from the table, or a
truthy member inherited from Object.prototype by bracket access. -/
inductive ThemeResult where
  | theme : Theme → ThemeResult
  | inherited : String → ThemeResult
deriving DecidableEq

/-- Theme lookup: absent and falsy names fall back to the default palette;
bracket access on the table returns an own palette when the name is a
table key, the truthy inherited Object.prototype member when the name is
one of its property names (which short-circuits the fallback), and only
otherwise falls back to the default palette. -/
def getTheme (n : Option String) : ThemeResult :=
  match n with
  | none => .theme defaultTheme
  | some s =>
    if s == "" then .theme defaultTheme
    else
      match lookupField themes s with
      | some t => .theme t
      | none =>
        if objectPrototypeKeys.contains s then .inherited s
        else .theme defaultTheme

/-- CSS custom properties for a theme, with the card background key
included only when the palette defines a truthy card background; an
inherited lookup result has no colors field, so reading its background
raises the JavaScript TypeError. -/
def getThemeStyles (n : Option String) : Except String (List (String × String)) :=
  match getTheme n with
  | .inherited _ =>
    .error "Cannot read properties of undefined (reading 'background')"
  | .theme t =>
    .ok ([("--theme-bg", t.colors.background),
      ("--theme-text", t.colors.text),
      ("--theme-text-secondary", t.colors.textSecondary),
      ("--theme-accent", t.colors.accent),
      ("--theme-accent-hover", t.colors.accentHover),
      ("--theme-border", t.colors.border)] ++
      (match t.colors.cardBackground with
       | some cb => if cb == "" then [] else [("--theme-card-bg", cb)]
       | none => []))

/-- Inline style string for a theme, propagating the style map error. -/
def getThemeStyleString (n : Option String) : Except String String :=
  match getThemeStyles n with
  | .ok styles =>
    .ok (String.intercalate "; " (styles.map (fun p => p.1 ++ ": " ++ p.2)))
  | .error e => .error e

/-- Background expression of a theme: the gradient when truthy, the solid
background color otherwise; an inherited lookup result has no colors
field, so reading its gradient raises the JavaScript TypeError. -/
def getThemeBackground (n : Option String) : Except String String :=
  match getTheme n with
  | .inherited _ =>
    .error "Cannot read properties of undefined (reading 'backgroundGradient')"
  | .theme t =>
    .ok (match t.colors.backgroundGradient with
      | some g => if g == "" then t.colors.background else g
      | none => t.colors.background)

/-- The role-scoped class strings of a variant. -/
structure VariantClasses where
  container : String
  text : String
  heading : String
  button : String
  card : Option String
  border : Option String
deriving DecidableEq

/-- A named variant style descriptor. -/
structure VariantStyle where
  name : String
  description : String
  classes : VariantClasses
deriving DecidableEq

/-- The default variant descriptor. -/
def defaultVariant : VariantStyle :=
  { name := "default",
    description := "Standard solid background with default styling",
    classes := { container := "bg-white", text := "text-gray-700",
                 heading := "text-gray-900 font-bold",
                 button := "bg-primary hover:bg-blue-700 text-white font-semibold px-6 py-3 rounded-lg transition-colors",
                 card := some "bg-gray-50 border border-gray-200 rounded-lg",
                 border := some "border-gray-200" } }

/-- The dark variant descriptor. -/
def darkVariant : VariantStyle :=
  { name := "dark",
    description := "Dark background with light text for contrast",
    classes := { container := "bg-gray-900", text := "text-gray-300",
                 heading := "text-white font-bold",
                 button := "bg-white hover:bg-gray-100 text-gray-900 font-semibold px-6 py-3 rounded-lg transition-colors",
                 card := some "bg-gray-800 border border-gray-700 rounded-lg",
                 border := some "border-gray-700" } }

/-- The light variant descriptor. -/
def lightVariant : VariantStyle :=
  { name := "light",
    description := "Light, airy background with subtle styling",
    classes := { container := "bg-gray-50", text := "text-gray-600",
                 heading := "text-gray-800 font-bold",
                 button := "bg-gray-800 hover:bg-gray-900 text-white font-semibold px-6 py-3 rounded-lg transition-colors",
                 card := some "bg-white border border-gray-100 rounded-lg shadow-sm",
                 border := some "border-gray-100" } }

/-- The gradient variant descriptor. -/
def gradientVariant : VariantStyle :=
  { name := "gradient",
    description := "Vibrant gradient background (uses theme colors)",
    classes := { container := "bg-gradient-to-br from-blue-600 via-purple-600 to-pink-600",
                 text := "text-white/90", heading := "text-white font-bold",
                 button := "bg-white hover:bg-gray-100 text-gray-900 font-semibold px-6 py-3 rounded-lg transition-all hover:scale-105",
                 card := some "bg-white/10 backdrop-blur-sm border border-white/20 rounded-lg",
                 border := some "border-white/20" } }

/-- The outline variant descriptor. -/
def outlineVariant : VariantStyle :=
  { name := "outline",
    description := "Transparent background with outlined elements",
    classes := { container := "bg-transparent", text := "text-gray-700",
                 heading := "text-gray-900 font-bold",
                 button := "bg-transparent hover:bg-gray-100 text-gray-900 font-semibold px-6 py-3 rounded-lg border-2 border-gray-900 transition-colors",
                 card := some "bg-transparent border-2 border-gray-900 rounded-lg",
                 border := some "border-2 border-gray-900" } }

/-- The fixed variant table, in declaration order. -/
def variants : List (String × VariantStyle) :=
  [("default", defaultVariant), ("dark", darkVariant), ("light", lightVariant),
   ("gradient", gradientVariant), ("outline", outlineVariant)]

/-- What the variant lookup can hand back: a descriptor from the table, or
a truthy member inherited from Object.prototype by bracket access. -/
inductive VariantResult where
  | variant : VariantStyle → VariantResult
  | inherited : String → VariantResult
deriving DecidableEq

/-- Variant lookup: absent and falsy names fall back to the default
descriptor; bracket access on the table returns an own descriptor for a
table key, the truthy inherited Object.prototype member for one of its
property names, and only otherwise falls back to the default
descriptor. -/
def getVariant (n : Option String) : VariantResult :=
  match n with
  | none => .variant defaultVariant
  | some s =>
    if s == "" then .variant defaultVariant
    else
      match lookupField variants s with
      | some v => .variant v
      | none =>
        if objectPrototypeKeys.contains s then .inherited s
        else .variant defaultVariant

/-- The element roles a variant assigns class strings to. -/
inductive ClassElement where
  | container | text | heading | button | card | border
deriving DecidableEq

/-- Projection of a classes record at an element role. -/
def classesField (c : VariantClasses) : ClassElement → Option String
  | .container => some c.container
  | .text => some c.text
  | .heading => some c.heading
  | .button => some c.button
  | .card => c.card
  | .border => c.border

/-- The property name an element role is read under. -/
def classElementName : ClassElement → String
  | .container => "container"
  | .text => "text"
  | .heading => "heading"
  | .button => "button"
  | .card => "card"
  | .border => "border"

/-- Combined class string of a variant for an element role, empty when the
role is unset; an inherited lookup result has no classes field, so
indexing it raises the JavaScript TypeError naming the role. -/
def getVariantClasses (n : Option String) (e : ClassElement) :
    Except String String :=
  match getVariant n with
  | .inherited _ =>
    .error ("Cannot read properties of undefined (reading '" ++
      classElementName e ++ "')")
  | .variant v => .ok ((classesField v.classes e).getD "")

/-- Merge variant classes with caller-supplied custom classes: falsy custom
classes leave the variant classes alone, otherwise they are appended; the
variant class error propagates. -/
def mergeVariantClasses (n : Option String) (e : ClassElement)
    (custom : Option String) : Except String String :=
  match getVariantClasses n e with
  | .error er => .error er
  | .ok vc =>
    match custom with
    | none => .ok vc
    | some s => .ok (if s == "" then vc else (vc ++ " " ++ s).trim)

/-- A lookup name that cannot hit an inherited Object.prototype member of a
table with the given key set: absent, an own key, or outside the inherited
property names. -/
def protoSafe (keys : List String) : Option String → Prop
  | none => True
  | some s => s ∈ keys ∨ s ∉ objectPrototypeKeys

/-- Shared navigation load: a failed read or parse degrades to no shared
header and footer instead of propagating the error. -/
def getSharedNavigation (r : Except String SharedNav) : SharedNav :=
  match r with
  | .ok v => v
  | .error _ => { header := none, footer := none }

/-- Shared theme load: a failed read or parse degrades to an empty theme
configuration instead of propagating the error. -/
def getSharedTheme (r : Except String ThemeConfig) : ThemeConfig :=
  match r with
  | .ok v => v
  | .error _ => { global := none, componentThemes := none }

/-- The header and footer merge: page-level values win, shared navigation
fills the gaps, by nullish coalescing on each field. -/
def mergeNav (d : PageData) (nav : SharedNav) : PageData :=
  { d with header := d.header.or nav.header, footer := d.footer.or nav.footer }

/-- Truthiness of a componentThemes entry as the source guards it: the
variant or the theme must be a truthy string. -/
def cteTruthy (e : ComponentThemeEntry) : Bool :=
  strTruthy e.variant || strTruthy e.theme

/-- Shared theme application to one component: dereferences the style field
of the config (raising the JavaScript TypeError when the config is absent),
skips components whose style is already set, and otherwise assigns the
variant and theme the shared document binds to the component type. An
absent type is looked up under the key the undefined value coerces to. -/
def applyToComponent (cts : List (String × ComponentThemeEntry))
    (c : PageComponent) : Except String PageComponent :=
  match c.config with
  | none => .error "Cannot read properties of undefined (reading 'style')"
  | some cfg =>
    if cfg.style.isSome then .ok c
    else
      match lookupField cts (c.type.getD "undefined") with
      | some cte =>
        if cteTruthy cte then
          .ok { c with config := some { cfg with
                  style := some { variant := cte.variant, theme := cte.theme } } }
        else .ok c
      | none => .ok c

/-- Sequential traversal aborting at the first error, as forEach with a
thrown exception does. -/
def mapExcept (f : PageComponent → Except String PageComponent) :
    List PageComponent → Except String (List PageComponent)
  | [] => .ok []
  | c :: rest =>
    match f c with
    | .error e => .error e
    | .ok c2 =>
      match mapExcept f rest with
      | .error e => .error e
      | .ok rest2 => .ok (c2 :: rest2)

/-- Shared theme application to a page: a no-op when the page has no
components field or the shared document has no componentThemes field,
otherwise every component is processed in order. -/
def applySharedTheme (d : PageData) (tc : ThemeConfig) :
    Except String PageData :=
  match d.components, tc.componentThemes with
  | none, _ => .ok d
  | some _, none => .ok d
  | some comps, some cts =>
    match mapExcept (applyToComponent cts) comps with
    | .error e => .error e
    | .ok comps2 => .ok { d with components := some comps2 }

/-- Validation of one components entry at its index: type present, type
registered, config present, in that order. -/
def validateComponent (pageName : String) (i : Nat) (c : PageComponent) :
    Except String Unit :=
  if !strTruthy c.type then
    .error ("Page \"" ++ pageName ++ "\": Component at index " ++ toString i ++
            " is missing required \"type\" field")
  else if !isValidComponentType (c.type.getD "") then
    .error ("Page \"" ++ pageName ++ "\": Component at index " ++ toString i ++
            " has invalid type \"" ++ c.type.getD "" ++ "\"")
  else if c.config.isNone then
    .error ("Page \"" ++ pageName ++ "\": Component \"" ++ c.type.getD "" ++
            "\" at index " ++ toString i ++ " is missing required \"config\" field")
  else .ok ()

/-- Validation of the components list in index order, failing at the first
violating entry. -/
def validateComponents (pageName : String) (i : Nat) :
    List PageComponent → Except String Unit
  | [] => .ok ()
  | c :: rest =>
    match validateComponent pageName i c with
    | .error e => .error e
    | .ok _ => validateComponents pageName (i + 1) rest

/-- Validation of an optional header or footer component: when present its
type must be present and registered. -/
def validateNavComponent (pageName label : String)
    (oc : Option PageComponent) : Except String Unit :=
  match oc with
  | none => .ok ()
  | some c =>
    if !strTruthy c.type then
      .error ("Page \"" ++ pageName ++ "\": " ++ label ++
              " is missing required \"type\" field")
    else if !isValidComponentType (c.type.getD "") then
      .error ("Page \"" ++ pageName ++ "\": " ++ label ++
              " has invalid type \"" ++ c.type.getD "" ++ "\"")
    else .ok ()

/-- Structural validation of a page document: meta, meta.title,
meta.description, the components array, each components entry in index
order, then the header, then the footer; it fails at the first violated
rule. -/
def validatePageData (d : PageData) (pageName : String) :
    Except String Unit :=
  match d.meta with
  | none => .error ("Page \"" ++ pageName ++ "\" is missing required \"meta\" field")
  | some m =>
    if !strTruthy m.title then
      .error ("Page \"" ++ pageName ++ "\" is missing required \"meta.title\" field")
    else if !strTruthy m.description then
      .error ("Page \"" ++ pageName ++ "\" is missing required \"meta.description\" field")
    else
      match d.components with
      | none =>
        .error ("Page \"" ++ pageName ++
                "\" is missing required \"components\" array or it\x27s not an array")
      | some comps =>
        match validateComponents pageName 0 comps with
        | .error e => .error e
        | .ok _ =>
          match validateNavComponent pageName "Header" d.header with
          | .error e => .error e
          | .ok _ => validateNavComponent pageName "Footer" d.footer

/-- The body of the page load: read the page document, load the shared
documents with degradation, merge the shared navigation, apply the shared
theme, validate the merged document, and return it. -/
def getPageDataCore (pageName : String) (pageRead : Except String PageData)
    (navRead : Except String SharedNav) (themeRead : Except String ThemeConfig) :
    Except String PageData :=
  match pageRead with
  | .error e => .error e
  | .ok data =>
    let sharedNav := getSharedNavigation navRead
    let sharedTheme := getSharedTheme themeRead
    let merged := mergeNav data sharedNav
    match applySharedTheme merged sharedTheme with
    | .error e => .error e
    | .ok themed =>
      match validatePageData themed pageName with
      | .error e => .error e
      | .ok _ => .ok themed

/-- The wrapper every error of the page load is rethrown with. -/
def wrapError (pageName msg : String) : String :=
  "Failed to load page data for \"" ++ pageName ++ "\": " ++ msg

/-- The page load entry point: the body of the load with every error
wrapped with the page name. -/
def getPageData (pageName : String) (pageRead : Except String PageData)
    (navRead : Except String SharedNav) (themeRead : Except String ThemeConfig) :
    Except String PageData :=
  match getPageDataCore pageName pageRead navRead themeRead with
  | .ok d => .ok d
  | .error e => .error (wrapError pageName e)

/-- Reassign the enabled flag of a component, leaving every other field as
it was. -/
def withEnabled (e : Option Bool) (c : PageComponent) : PageComponent :=
  { c with enabled := e }

/-- Reassign the enabled flag of every components entry of a page. -/
def pageWithEnabled (e : Option Bool) (d : PageData) : PageData :=
  { d with components := d.components.map (fun cs => cs.map (withEnabled e)) }

/-- The shared componentThemes entry the theme application consults for a
component: nothing when the shared document has no componentThemes field. -/
def lookupCT (tc : ThemeConfig) (c : PageComponent) : Option ComponentThemeEntry :=
  match tc.componentThemes with
  | none => none
  | some cts => lookupField cts (c.type.getD "undefined")

/-- The specified behavior of the shared style merge on one components
entry: a page-set style is left untouched, an absent style is filled with
exactly the variant and theme the shared document binds to the type, and
an entry is unchanged when the shared document supplies nothing for it. -/
def styleMergeSpec (tc : ThemeConfig) (c c' : PageComponent) : Prop :=
  (∀ cfg, c.config = some cfg → cfg.style.isSome = true → c' = c) ∧
  (∀ cfg cte, c.config = some cfg → cfg.style = none → lookupCT tc c = some cte →
    cteTruthy cte = true →
    c' = { c with config := some { cfg with
            style := some { variant := cte.variant, theme := cte.theme } } }) ∧
  (∀ cfg, c.config = some cfg → cfg.style = none → lookupCT tc c = none → c' = c) ∧
  (∀ cfg cte, c.config = some cfg → cfg.style = none → lookupCT tc c = some cte →
    cteTruthy cte = false → c' = c)

/-- Frame relation between an input components entry and the corresponding
output entry of the page load: type, id, enabled, config presence, config
layout and config content are unchanged, and a config whose style was set
is returned with its whole config identical. -/
def entryFramePreserved (c c' : PageComponent) : Prop :=
  c'.type = c.type ∧ c'.id = c.id ∧ c'.enabled = c.enabled ∧
  c'.config.isSome = c.config.isSome ∧
  c'.config.map ComponentConfig.layout = c.config.map ComponentConfig.layout ∧
  c'.config.map ComponentConfig.content = c.config.map ComponentConfig.content ∧
  (∀ cfg, c.config = some cfg → cfg.style.isSome = true → c'.config = c.config)

/-- A config with no layout, style or content. -/
def emptyCfg : ComponentConfig := { layout := none, style := none, content := none }

/-- A meta block with a title and a description. -/
def okMeta : MetaConfig :=
  { title := some "T", description := some "D", lang := none, charset := none,
    ldJson := none }

/-- A Hero components entry with no config field. -/
def heroNoCfg : PageComponent :=
  { type := some "Hero", id := none, enabled := none, config := none }

/-- A Hero components entry with an empty config. -/
def heroCfg : PageComponent :=
  { type := some "Hero", id := none, enabled := none, config := some emptyCfg }

/-- A page document whose single components entry lacks its config field. -/
def pageBadCfg : PageData :=
  { meta := some okMeta, layout := none, header := none,
    components := some [heroNoCfg], footer := none }

/-- A shared theme document binding the dark variant to Hero components. -/
def themeWithCT : ThemeConfig :=
  { global := none,
    componentThemes := some [("Hero", { variant := some "dark", theme := none })] }

/-- A shared navigation document with no header and no footer. -/
def emptyNav : SharedNav := { header := none, footer := none }

/-- A shared theme document with no componentThemes. -/
def emptyTheme : ThemeConfig := { global := none, componentThemes := none }

/-- A valid page document with an empty components list. -/
def pageOkEmpty : PageData :=
  { meta := some okMeta, layout := none, header := none,
    components := some [], footer := none }

/-- A header component whose type is not registered. -/
def bogusHeader : PageComponent :=
  { type := some "Bogus", id := none, enabled := none, config := some emptyCfg }

/-- A shared navigation document supplying an invalid header. -/
def navBogus : SharedNav := { header := some bogusHeader, footer := none }

/-- A valid header component of type Header. -/
def goodHeader : PageComponent :=
  { type := some "Header", id := none, enabled := none, config := some emptyCfg }

/-- A shared navigation document supplying a valid header. -/
def navGood : SharedNav := { header := some goodHeader, footer := none }

/-- A valid page document with one Hero components entry without style. -/
def pageGood : PageData :=
  { meta := some okMeta, layout := none, header := none,
    components := some [heroCfg], footer := none }

/-- The Hero components entry after the shared dark variant is applied. -/
def heroStyled : PageComponent :=
  { type := some "Hero", id := none, enabled := none,
    config := some { emptyCfg with
      style := some { variant := some "dark", theme := none } } }

/-- The resolved document the page load produces for pageGood under navGood
and themeWithCT. -/
def pageGoodOut : PageData :=
  { meta := some okMeta, layout := none, header := some goodHeader,
    components := some [heroStyled], footer := none }

/-- A page document with one disabled components entry that lacks its
config field. -/
def pageDisabledBad : PageData :=
  { meta := some okMeta, layout := none, header := none,
    components := some [{ type := some "Hero", id := none,
                          enabled := some false, config := none }],
    footer := none }

theorem lookupField_eq_none {α : Type} {l : List (String × α)} {k : String}
    (h : k ∉ l.map Prod.fst) : lookupField l k = none := by
  unfold lookupField
  rw [List.find?_eq_none.mpr]
  · rfl
  · intro p hp hbeq
    exact h (List.mem_map.mpr ⟨p, hp, by simpa using (beq_iff_eq.mp hbeq)⟩)

theorem lookupField_mem {α : Type} {l : List (String × α)} {k : String} {v : α}
    (h : lookupField l k = some v) : v ∈ l.map Prod.snd := by
  unfold lookupField at h
  cases hf : l.find? (fun p => p.1 == k) with
  | none => rw [hf] at h; cases h
  | some p =>
    rw [hf] at h
    cases h
    exact List.mem_map.mpr ⟨p, List.mem_of_find?_eq_some hf, rfl⟩

theorem lookupField_isSome_iff {α : Type} {l : List (String × α)} {k : String} :
    (lookupField l k).isSome = true ↔ k ∈ l.map Prod.fst := by
  constructor
  · intro h
    cases hf : l.find? (fun p => p.1 == k) with
    | none => unfold lookupField at h; rw [hf] at h; cases h
    | some q =>
      have hk := List.find?_some hf
      have hq : q.1 = k := by simpa using hk
      exact hq ▸ List.mem_map.mpr ⟨q, List.mem_of_find?_eq_some hf, rfl⟩
  · intro h
    obtain ⟨p, hp, hpk⟩ := List.mem_map.mp h
    unfold lookupField
    cases hf : l.find? (fun p => p.1 == k) with
    | none =>
      exact absurd (by simpa using hpk) (List.find?_eq_none.mp hf p hp)
    | some q => rfl

theorem or_absorb {α : Type} (a b : Option α) : (a.or b).or b = a.or b := by
  rw [Option.or_assoc, Option.or_self]

theorem contains_eq_false_of_not_mem {l : List String} {s : String}
    (h : s ∉ l) : l.contains s = false := by
  cases hc : l.contains s with
  | false => rfl
  | true => exact absurd (List.elem_iff.mp hc) h

theorem not_mem_of_contains_eq_false {l : List String} {s : String}
    (h : l.contains s = false) : s ∉ l :=
  fun hm => Bool.noConfusion (h.symm.trans (List.elem_eq_true_of_mem hm))

theorem lookupField_isSome_eq_contains {α : Type} (l : List (String × α))
    (k : String) :
    (lookupField l k).isSome = (l.map Prod.fst).contains k := by
  rw [Bool.eq_iff_iff]
  exact ⟨fun h => List.elem_eq_true_of_mem (lookupField_isSome_iff.mp h),
    fun h => lookupField_isSome_iff.mpr (List.elem_iff.mp h)⟩

theorem getTheme_safe {n : Option String}
    (h : protoSafe (themes.map Prod.fst) n) :
    ∃ t, getTheme n = .theme t ∧ t ∈ themes.map Prod.snd := by
  cases n with
  | none => exact ⟨defaultTheme, rfl, by decide⟩
  | some s =>
    cases hse : (s == "") with
    | true =>
      refine ⟨defaultTheme, ?_, by decide⟩
      simp [getTheme, hse]
    | false =>
      cases hl : lookupField themes s with
      | some t =>
        refine ⟨t, ?_, lookupField_mem hl⟩
        simp [getTheme, hse, hl]
      | none =>
        have hnk : s ∉ themes.map Prod.fst := by
          intro hmem
          have := lookupField_isSome_iff.mpr hmem
          rw [hl] at this
          exact Bool.noConfusion this
        have hnp : s ∉ objectPrototypeKeys := (h.resolve_left hnk)
        refine ⟨defaultTheme, ?_, by decide⟩
        simp [getTheme, hse, hl, hnp]

theorem getVariant_safe {n : Option String}
    (h : protoSafe (variants.map Prod.fst) n) :
    ∃ v, getVariant n = .variant v ∧ v ∈ variants.map Prod.snd := by
  cases n with
  | none => exact ⟨defaultVariant, rfl, by decide⟩
  | some s =>
    cases hse : (s == "") with
    | true =>
      refine ⟨defaultVariant, ?_, by decide⟩
      simp [getVariant, hse]
    | false =>
      cases hl : lookupField variants s with
      | some v =>
        refine ⟨v, ?_, lookupField_mem hl⟩
        simp [getVariant, hse, hl]
      | none =>
        have hnk : s ∉ variants.map Prod.fst := by
          intro hmem
          have := lookupField_isSome_iff.mpr hmem
          rw [hl] at this
          exact Bool.noConfusion this
        have hnp : s ∉ objectPrototypeKeys := (h.resolve_left hnk)
        refine ⟨defaultVariant, ?_, by decide⟩
        simp [getVariant, hse, hl, hnp]

theorem mapExcept_forall2 {R : PageComponent → PageComponent → Prop}
    {f : PageComponent → Except String PageComponent}
    (hf : ∀ c c2, f c = .ok c2 → R c c2) :
    ∀ {cs cs2 : List PageComponent}, mapExcept f cs = .ok cs2 →
      List.Forall₂ R cs cs2 := by
  intro cs
  induction cs with
  | nil =>
    intro cs2 h
    simp only [mapExcept] at h
    cases h
    exact List.Forall₂.nil
  | cons c rest ih =>
    intro cs2 h
    simp only [mapExcept] at h
    cases hfc : f c with
    | error e => rw [hfc] at h; cases h
    | ok c2 =>
      rw [hfc] at h
      cases hrest : mapExcept f rest with
      | error e => rw [hrest] at h; cases h
      | ok rest2 =>
        rw [hrest] at h
        cases h
        exact List.Forall₂.cons (hf c c2 hfc) (ih hrest)

theorem mapExcept_fix {f : PageComponent → Except String PageComponent}
    (hf : ∀ c c2, f c = .ok c2 → f c2 = .ok c2) :
    ∀ {cs cs2 : List PageComponent}, mapExcept f cs = .ok cs2 →
      mapExcept f cs2 = .ok cs2 := by
  intro cs
  induction cs with
  | nil =>
    intro cs2 h
    simp only [mapExcept] at h
    cases h
    rfl
  | cons c rest ih =>
    intro cs2 h
    simp only [mapExcept] at h
    cases hfc : f c with
    | error e => rw [hfc] at h; cases h
    | ok c2 =>
      rw [hfc] at h
      cases hrest : mapExcept f rest with
      | error e => rw [hrest] at h; cases h
      | ok rest2 =>
        rw [hrest] at h
        cases h
        simp only [mapExcept, hf c c2 hfc, ih hrest]

theorem mapExcept_map_comm {f : PageComponent → Except String PageComponent}
    {g : PageComponent → PageComponent}
    (hfg : ∀ c, f (g c) = (f c).map g) :
    ∀ cs : List PageComponent,
      mapExcept f (cs.map g) = (mapExcept f cs).map (List.map g) := by
  intro cs
  induction cs with
  | nil => rfl
  | cons c rest ih =>
    simp only [List.map_cons, mapExcept, hfg c, ih]
    cases hfc : f c with
    | error e => rfl
    | ok c2 =>
      simp only [Except.map]
      cases hrest : mapExcept f rest with
      | error e => rfl
      | ok rest2 => rfl

theorem applyToComponent_cases {cts : List (String × ComponentThemeEntry)}
    {c c2 : PageComponent} (h : applyToComponent cts c = .ok c2) :
    (∃ cfg, c.config = some cfg ∧ cfg.style.isSome = true ∧ c2 = c) ∨
    (∃ cfg cte, c.config = some cfg ∧ cfg.style = none ∧
      lookupField cts (c.type.getD "undefined") = some cte ∧ cteTruthy cte = true ∧
      c2 = { c with config := some { cfg with
              style := some { variant := cte.variant, theme := cte.theme } } }) ∨
    (∃ cfg, c.config = some cfg ∧ cfg.style = none ∧
      lookupField cts (c.type.getD "undefined") = none ∧ c2 = c) ∨
    (∃ cfg cte, c.config = some cfg ∧ cfg.style = none ∧
      lookupField cts (c.type.getD "undefined") = some cte ∧ cteTruthy cte = false ∧
      c2 = c) := by
  cases hcfg : c.config with
  | none =>
    simp only [applyToComponent, hcfg] at h
    exact Except.noConfusion h
  | some cfg =>
    cases hs : cfg.style with
    | some st =>
      simp only [applyToComponent, hcfg, hs, Option.isSome_some, if_true] at h
      cases h
      exact Or.inl ⟨cfg, rfl, by rw [hs]; rfl, rfl⟩
    | none =>
      simp only [applyToComponent, hcfg, hs, Option.isSome_none,
        Bool.false_eq_true, if_false] at h
      cases hl : lookupField cts (c.type.getD "undefined") with
      | none =>
        simp only [hl] at h
        cases h
        exact Or.inr (Or.inr (Or.inl ⟨cfg, rfl, hs, rfl, rfl⟩))
      | some cte =>
        simp only [hl] at h
        cases ht : cteTruthy cte with
        | true =>
          simp only [ht, if_true] at h
          cases h
          exact Or.inr (Or.inl ⟨cfg, cte, rfl, hs, rfl, ht, rfl⟩)
        | false =>
          simp only [ht, Bool.false_eq_true, if_false] at h
          cases h
          exact Or.inr (Or.inr (Or.inr ⟨cfg, cte, rfl, hs, rfl, ht, rfl⟩))

theorem applyToComponent_of_styleSome {cts : List (String × ComponentThemeEntry)}
    {c : PageComponent} {cfg : ComponentConfig} (hcfg : c.config = some cfg)
    (hs : cfg.style.isSome = true) : applyToComponent cts c = .ok c := by
  simp only [applyToComponent, hcfg, hs, if_true]

theorem applyToComponent_of_noStyle {cts : List (String × ComponentThemeEntry)}
    {c : PageComponent} {cfg : ComponentConfig} (hcfg : c.config = some cfg)
    (hs : cfg.style = none) :
    applyToComponent cts c =
      (match lookupField cts (c.type.getD "undefined") with
       | some cte =>
         if cteTruthy cte then
           .ok { c with config := some { cfg with
                   style := some { variant := cte.variant, theme := cte.theme } } }
         else .ok c
       | none => .ok c) := by
  simp only [applyToComponent, hcfg, hs, Option.isSome_none,
    Bool.false_eq_true, if_false]

theorem applyToComponent_fix {cts : List (String × ComponentThemeEntry)}
    {c c2 : PageComponent} (h : applyToComponent cts c = .ok c2) :
    applyToComponent cts c2 = .ok c2 := by
  rcases applyToComponent_cases h with
    ⟨cfg, hcfg, hs, hc⟩ | ⟨cfg, cte, hcfg, hs, hl, ht, hc⟩ |
    ⟨cfg, hcfg, hs, hl, hc⟩ | ⟨cfg, cte, hcfg, hs, hl, ht, hc⟩
  · exact hc ▸ applyToComponent_of_styleSome hcfg hs
  · subst hc
    exact applyToComponent_of_styleSome rfl rfl
  · subst hc
    rw [applyToComponent_of_noStyle hcfg hs, hl]
  · subst hc
    rw [applyToComponent_of_noStyle hcfg hs, hl]
    simp only [ht, Bool.false_eq_true, if_false]

theorem applySharedTheme_cases {d : PageData} {tc : ThemeConfig} {d2 : PageData}
    (h : applySharedTheme d tc = .ok d2) :
    (d.components = none ∧ d2 = d) ∨
    (d.components.isSome = true ∧ tc.componentThemes = none ∧ d2 = d) ∨
    (∃ comps comps2 cts, d.components = some comps ∧ tc.componentThemes = some cts ∧
      mapExcept (applyToComponent cts) comps = .ok comps2 ∧
      d2 = { d with components := some comps2 }) := by
  cases hc : d.components with
  | none =>
    simp only [applySharedTheme, hc] at h
    cases h
    exact Or.inl ⟨rfl, rfl⟩
  | some comps =>
    cases hct : tc.componentThemes with
    | none =>
      simp only [applySharedTheme, hc, hct] at h
      cases h
      exact Or.inr (Or.inl ⟨rfl, rfl, rfl⟩)
    | some cts =>
      simp only [applySharedTheme, hc, hct] at h
      cases hm : mapExcept (applyToComponent cts) comps with
      | error e =>
        simp only [hm] at h
        exact Except.noConfusion h
      | ok comps2 =>
        simp only [hm] at h
        cases h
        exact Or.inr (Or.inr ⟨comps, comps2, cts, rfl, rfl, hm, rfl⟩)

theorem applySharedTheme_preserves {d : PageData} {tc : ThemeConfig} {d2 : PageData}
    (h : applySharedTheme d tc = .ok d2) :
    d2.meta = d.meta ∧ d2.layout = d.layout ∧ d2.header = d.header ∧
      d2.footer = d.footer := by
  rcases applySharedTheme_cases h with ⟨_, hd⟩ | ⟨_, _, hd⟩ | ⟨_, _, _, _, _, _, hd⟩ <;>
    rw [hd] <;> exact ⟨rfl, rfl, rfl, rfl⟩

theorem applySharedTheme_fix {d : PageData} {tc : ThemeConfig} {d2 : PageData}
    (h : applySharedTheme d tc = .ok d2) : applySharedTheme d2 tc = .ok d2 := by
  rcases applySharedTheme_cases h with ⟨hc, hd⟩ | ⟨hc, hct, hd⟩ |
    ⟨comps, comps2, cts, hc, hct, hm, hd⟩
  · rw [hd]
    simp only [applySharedTheme, hc]
  · rw [hd]
    cases hcc : d.components with
    | none => simp only [applySharedTheme, hcc]
    | some cs => simp only [applySharedTheme, hcc, hct]
  · rw [hd]
    have hm2 : mapExcept (applyToComponent cts) comps2 = .ok comps2 :=
      mapExcept_fix (fun c c2 hc0 => applyToComponent_fix hc0) hm
    simp only [applySharedTheme, hct, hm2]

theorem withEnabled_type (e : Option Bool) (c : PageComponent) :
    (withEnabled e c).type = c.type := rfl

theorem applyToComponent_withEnabled (cts : List (String × ComponentThemeEntry))
    (e : Option Bool) (c : PageComponent) :
    applyToComponent cts (withEnabled e c) =
      (applyToComponent cts c).map (withEnabled e) := by
  cases hcfg : c.config with
  | none =>
    have hcfg2 : (withEnabled e c).config = none := hcfg
    simp only [applyToComponent, hcfg, hcfg2, Except.map]
  | some cfg =>
    have hcfg2 : (withEnabled e c).config = some cfg := hcfg
    cases hs : cfg.style with
    | some st =>
      simp only [applyToComponent, hcfg, hcfg2, hs, Option.isSome_some, if_true,
        Except.map]
    | none =>
      simp only [applyToComponent, hcfg, hcfg2, hs, Option.isSome_none,
        Bool.false_eq_true, if_false, withEnabled_type]
      cases hl : lookupField cts (c.type.getD "undefined") with
      | none => simp only [Except.map]
      | some cte =>
        cases ht : cteTruthy cte with
        | true => simp only [ht, if_true, Except.map]; rfl
        | false => simp only [ht, Bool.false_eq_true, if_false, Except.map]

theorem applySharedTheme_pageWithEnabled (d : PageData) (tc : ThemeConfig)
    (e : Option Bool) :
    applySharedTheme (pageWithEnabled e d) tc =
      (applySharedTheme d tc).map (pageWithEnabled e) := by
  cases hc : d.components with
  | none =>
    have hc2 : (pageWithEnabled e d).components = none := by
      simp only [pageWithEnabled, hc, Option.map_none']
    simp only [applySharedTheme, hc, hc2, Except.map]
  | some comps =>
    have hc2 : (pageWithEnabled e d).components = some (comps.map (withEnabled e)) := by
      simp only [pageWithEnabled, hc, Option.map_some']
    cases hct : tc.componentThemes with
    | none => simp only [applySharedTheme, hc, hc2, hct, Except.map]
    | some cts =>
      simp only [applySharedTheme, hc, hc2, hct,
        mapExcept_map_comm (fun c => applyToComponent_withEnabled cts e c) comps]
      cases hm : mapExcept (applyToComponent cts) comps with
      | error er => simp only [Except.map]
      | ok comps2 =>
        simp only [Except.map, Except.ok.injEq]
        show ({ d with components := some (comps2.map (withEnabled e)) } : PageData) =
          pageWithEnabled e { d with components := some comps2 }
        simp only [pageWithEnabled, Option.map_some']

theorem validateComponent_withEnabled (n : String) (i : Nat) (e : Option Bool)
    (c : PageComponent) :
    validateComponent n i (withEnabled e c) = validateComponent n i c := rfl

theorem validateComponents_withEnabled (n : String) (e : Option Bool) :
    ∀ (i : Nat) (cs : List PageComponent),
      validateComponents n i (cs.map (withEnabled e)) = validateComponents n i cs := by
  intro i cs
  induction cs generalizing i with
  | nil => rfl
  | cons c rest ih =>
    simp only [List.map_cons, validateComponents, validateComponent_withEnabled]
    cases validateComponent n i c with
    | error er => rfl
    | ok u => exact ih (i + 1)

theorem validate_pageWithEnabled (d : PageData) (n : String) (e : Option Bool) :
    validatePageData (pageWithEnabled e d) n = validatePageData d n := by
  obtain ⟨m, lay, hd, cs, ft⟩ := d
  cases m with
  | none => rfl
  | some m0 =>
    cases hT : strTruthy m0.title with
    | false => simp [validatePageData, pageWithEnabled, hT]
    | true =>
      cases hD : strTruthy m0.description with
      | false => simp [validatePageData, pageWithEnabled, hT, hD]
      | true =>
        cases cs with
        | none => rfl
        | some cs0 =>
          simp only [validatePageData, pageWithEnabled, hT, hD, Option.map_some',
            Bool.not_true, Bool.false_eq_true, if_false,
            validateComponents_withEnabled]

theorem getPageDataCore_ok {pageName : String} {pageRead : Except String PageData}
    {navRead : Except String SharedNav} {themeRead : Except String ThemeConfig}
    {d : PageData}
    (h : getPageDataCore pageName pageRead navRead themeRead = .ok d) :
    ∃ data, pageRead = .ok data ∧
      applySharedTheme (mergeNav data (getSharedNavigation navRead))
        (getSharedTheme themeRead) = .ok d ∧
      validatePageData d pageName = .ok () := by
  cases hp : pageRead with
  | error e =>
    simp only [getPageDataCore, hp] at h
    exact Except.noConfusion h
  | ok data =>
    simp only [getPageDataCore, hp] at h
    cases ha : applySharedTheme (mergeNav data (getSharedNavigation navRead))
        (getSharedTheme themeRead) with
    | error e =>
      simp only [ha] at h
      exact Except.noConfusion h
    | ok themed =>
      simp only [ha] at h
      cases hv : validatePageData themed pageName with
      | error e =>
        simp only [hv] at h
        exact Except.noConfusion h
      | ok u =>
        simp only [hv] at h
        cases h
        cases u
        exact ⟨data, rfl, ha, hv⟩

theorem getPageData_ok {pageName : String} {pageRead : Except String PageData}
    {navRead : Except String SharedNav} {themeRead : Except String ThemeConfig}
    {d : PageData}
    (h : getPageData pageName pageRead navRead themeRead = .ok d) :
    getPageDataCore pageName pageRead navRead themeRead = .ok d := by
  unfold getPageData at h
  cases hc : getPageDataCore pageName pageRead navRead themeRead with
  | error e => rw [hc] at h; exact Except.noConfusion h
  | ok d0 => rw [hc] at h; cases h; rfl

theorem getPageDataCore_of_parts {pageName : String} {pageRead : Except String PageData}
    {navRead : Except String SharedNav} {themeRead : Except String ThemeConfig}
    {data d : PageData} (hp : pageRead = .ok data)
    (ha : applySharedTheme (mergeNav data (getSharedNavigation navRead))
      (getSharedTheme themeRead) = .ok d)
    (hv : validatePageData d pageName = .ok ()) :
    getPageData pageName pageRead navRead themeRead = .ok d := by
  unfold getPageData getPageDataCore
  rw [hp]
  simp only [ha, hv]

theorem validate_ok_components {d : PageData} {n : String}
    (h : validatePageData d n = .ok ()) : d.components.isSome = true := by
  obtain ⟨m, lay, hd, cs, ft⟩ := d
  cases m with
  | none => exact Except.noConfusion h
  | some m0 =>
    cases hT : strTruthy m0.title with
    | false =>
      simp only [validatePageData, hT, Bool.not_false, if_true] at h
      exact Except.noConfusion h
    | true =>
      cases hD : strTruthy m0.description with
      | false =>
        simp only [validatePageData, hT, hD, Bool.not_true, Bool.not_false,
          Bool.false_eq_true, if_false, if_true] at h
        exact Except.noConfusion h
      | true =>
        cases cs with
        | none =>
          simp only [validatePageData, hT, hD, Bool.not_true,
            Bool.false_eq_true, if_false] at h
          exact Except.noConfusion h
        | some cs0 => rfl

theorem style_none_not_isSome {cfg : ComponentConfig} (hn : cfg.style = none)
    (hs : cfg.style.isSome = true) : False := by
  rw [hn] at hs
  exact Bool.noConfusion hs

theorem entryFramePreserved_refl (c : PageComponent) : entryFramePreserved c c :=
  ⟨rfl, rfl, rfl, rfl, rfl, rfl, fun _ _ _ => rfl⟩

theorem styleMergeSpec_self_of_noCT {tc : ThemeConfig}
    (hct : tc.componentThemes = none) (c : PageComponent) :
    styleMergeSpec tc c c := by
  have hl : lookupCT tc c = none := by simp only [lookupCT, hct]
  refine ⟨fun _ _ _ => rfl, ?_, fun _ _ _ _ => rfl, fun _ _ _ _ _ _ => rfl⟩
  intro cfg cte hcfg hs hl0 ht
  rw [hl] at hl0
  exact Option.noConfusion hl0

theorem applyToComponent_spec {tc : ThemeConfig}
    {cts : List (String × ComponentThemeEntry)}
    (hct : tc.componentThemes = some cts) {c c2 : PageComponent}
    (h : applyToComponent cts c = .ok c2) : styleMergeSpec tc c c2 := by
  have hlCT : lookupCT tc c = lookupField cts (c.type.getD "undefined") := by
    simp only [lookupCT, hct]
  rcases applyToComponent_cases h with
    ⟨cfg, hcfg, hs, hc⟩ | ⟨cfg, cte, hcfg, hs, hl, ht, hc⟩ |
    ⟨cfg, hcfg, hs, hl, hc⟩ | ⟨cfg, cte, hcfg, hs, hl, ht, hc⟩
  · refine ⟨fun _ _ _ => hc, ?_, ?_, ?_⟩
    · intro cfg0 cte0 hcfg0 hs0 _ _
      cases hcfg.symm.trans hcfg0
      exact absurd hs (by rw [hs0]; exact Bool.noConfusion)
    · intro cfg0 hcfg0 hs0 _
      cases hcfg.symm.trans hcfg0
      exact absurd hs (by rw [hs0]; exact Bool.noConfusion)
    · intro cfg0 cte0 hcfg0 hs0 _ _
      cases hcfg.symm.trans hcfg0
      exact absurd hs (by rw [hs0]; exact Bool.noConfusion)
  · refine ⟨?_, ?_, ?_, ?_⟩
    · intro cfg0 hcfg0 hs0
      cases hcfg.symm.trans hcfg0
      exact absurd (style_none_not_isSome hs hs0) id
    · intro cfg0 cte0 hcfg0 hs0 hl0 ht0
      cases hcfg.symm.trans hcfg0
      rw [hlCT, hl] at hl0
      cases hl0
      exact hc
    · intro cfg0 hcfg0 hs0 hl0
      rw [hlCT, hl] at hl0
      exact Option.noConfusion hl0
    · intro cfg0 cte0 hcfg0 hs0 hl0 ht0
      cases hcfg.symm.trans hcfg0
      rw [hlCT, hl] at hl0
      cases hl0
      rw [ht] at ht0
      exact Bool.noConfusion ht0
  · refine ⟨?_, ?_, fun _ _ _ _ => hc, ?_⟩
    · intro cfg0 hcfg0 hs0
      cases hcfg.symm.trans hcfg0
      exact absurd (style_none_not_isSome hs hs0) id
    · intro cfg0 cte0 hcfg0 hs0 hl0 ht0
      rw [hlCT, hl] at hl0
      exact Option.noConfusion hl0
    · intro cfg0 cte0 hcfg0 hs0 hl0 ht0
      rw [hlCT, hl] at hl0
      exact Option.noConfusion hl0
  · refine ⟨?_, ?_, ?_, fun _ _ _ _ _ _ => hc⟩
    · intro cfg0 hcfg0 hs0
      cases hcfg.symm.trans hcfg0
      exact absurd (style_none_not_isSome hs hs0) id
    · intro cfg0 cte0 hcfg0 hs0 hl0 ht0
      cases hcfg.symm.trans hcfg0
      rw [hlCT, hl] at hl0
      cases hl0
      rw [ht] at ht0
      exact Bool.noConfusion ht0
    · intro cfg0 hcfg0 hs0 hl0
      rw [hlCT, hl] at hl0
      exact Option.noConfusion hl0

theorem applyToComponent_frame {cts : List (String × ComponentThemeEntry)}
    {c c2 : PageComponent} (h : applyToComponent cts c = .ok c2) :
    entryFramePreserved c c2 := by
  rcases applyToComponent_cases h with
    ⟨cfg, hcfg, hs, hc⟩ | ⟨cfg, cte, hcfg, hs, hl, ht, hc⟩ |
    ⟨cfg, hcfg, hs, hl, hc⟩ | ⟨cfg, cte, hcfg, hs, hl, ht, hc⟩
  · exact hc ▸ entryFramePreserved_refl c
  · subst hc
    refine ⟨rfl, rfl, rfl, ?_, ?_, ?_, ?_⟩
    · rw [hcfg]; rfl
    · rw [hcfg]; rfl
    · rw [hcfg]; rfl
    · intro cfg0 hcfg0 hs0
      cases hcfg.symm.trans hcfg0
      exact absurd (style_none_not_isSome hs hs0) id
  · exact hc ▸ entryFramePreserved_refl c
  · exact hc ▸ entryFramePreserved_refl c

/-- Claim C1: the claim promises that a components entry lacking its config
field always makes the load fail with the validation error naming the page,
the index and the missing config field, regardless of the shared theme
document. The code applies the shared theme before validating and
dereferences the style field of the absent config, so with a shared theme
document that defines componentThemes the load fails with the wrapped
JavaScript TypeError instead; the validator alone would have produced the
promised error, which shows the descriptive error is the intent and the
unguarded dereference a slip. -/
theorem c1_missing_config_crash :
    getPageData "landing" (.ok pageBadCfg) (.ok emptyNav) (.ok themeWithCT) =
      .error "Failed to load page data for \"landing\": Cannot read properties of undefined (reading 'style')" ∧
    validatePageData pageBadCfg "landing" =
      .error "Page \"landing\": Component \"Hero\" at index 0 is missing required \"config\" field" :=
  ⟨rfl, rfl⟩

/-- Claim C4, counterexample: a page document that itself passes validation
can still fail the load under a readable shared navigation document whose
header has an unregistered type, because the merged document is validated;
so the claim does not hold for every possible content of the shared
files. -/
theorem c4_shared_content_fails_load :
    validatePageData pageOkEmpty "home" = .ok () ∧
    getPageData "home" (.ok pageOkEmpty) (.ok navBogus) (.ok emptyTheme) =
      .error "Failed to load page data for \"home\": Page \"home\": Header has invalid type \"Bogus\"" :=
  ⟨rfl, rfl⟩

/-- Claim C4 (amended): for every page document that itself passes
validation, a failed read or parse of the shared navigation or shared theme
document never makes the page load fail: both loads degrade to empty
defaults and the load returns the page document unchanged, whatever the
two read errors were. -/
theorem c4_read_failures_degrade (name : String) (d : PageData) (e1 e2 : String)
    (h : validatePageData d name = .ok ()) :
    getPageData name (.ok d) (.error e1) (.error e2) = .ok d := by
  have hm : mergeNav d (getSharedNavigation (Except.error e1)) = d := by
    show ({ d with header := d.header.or none, footer := d.footer.or none } : PageData) = d
    rw [Option.or_none, Option.or_none]
  have ha : applySharedTheme d (getSharedTheme (Except.error e2)) = .ok d := by
    cases hcc : d.components with
    | none => simp only [applySharedTheme, getSharedTheme, hcc]
    | some cs => simp only [applySharedTheme, getSharedTheme, hcc]
  exact getPageDataCore_of_parts rfl (by rw [hm]; exact ha) h

/-- Witness for the amended claim C4 at a concrete validated page and two
concrete read errors. -/
theorem c4_read_failures_degrade_witness :
    validatePageData pageGood "home" = .ok () ∧
    getPageData "home" (.ok pageGood) (.error "ENOENT") (.error "bad yaml") =
      .ok pageGood :=
  ⟨rfl, c4_read_failures_degrade "home" pageGood "ENOENT" "bad yaml" rfl⟩

/-- Claim C3: the header and footer merge is a field-level override: the
merged header equals the page header whenever the page provides one, the
shared header when the page provides none, stays absent when neither side
provides one, and is always exactly one of the two inputs, never a deep
merge; the same holds independently for the footer. -/
theorem c3_nav_field_override (d : PageData) (nav : SharedNav) :
    ((mergeNav d nav).header = d.header ∨ (mergeNav d nav).header = nav.header) ∧
    (∀ hc, d.header = some hc → (mergeNav d nav).header = some hc) ∧
    (d.header = none → (mergeNav d nav).header = nav.header) ∧
    (d.header = none → nav.header = none → (mergeNav d nav).header = none) ∧
    ((mergeNav d nav).footer = d.footer ∨ (mergeNav d nav).footer = nav.footer) ∧
    (∀ fc, d.footer = some fc → (mergeNav d nav).footer = some fc) ∧
    (d.footer = none → (mergeNav d nav).footer = nav.footer) ∧
    (d.footer = none → nav.footer = none → (mergeNav d nav).footer = none) := by
  have hh : (mergeNav d nav).header = d.header.or nav.header := rfl
  have hf : (mergeNav d nav).footer = d.footer.or nav.footer := rfl
  refine ⟨?_, ?_, ?_, ?_, ?_, ?_, ?_, ?_⟩
  · cases hdh : d.header with
    | none => exact Or.inr (by rw [hh, hdh, Option.none_or])
    | some a => exact Or.inl (by rw [hh, hdh, Option.or_some])
  · intro hc0 hdh
    rw [hh, hdh, Option.or_some]
  · intro hdh
    rw [hh, hdh, Option.none_or]
  · intro hdh hnh
    rw [hh, hdh, hnh, Option.none_or]
  · cases hdf : d.footer with
    | none => exact Or.inr (by rw [hf, hdf, Option.none_or])
    | some a => exact Or.inl (by rw [hf, hdf, Option.or_some])
  · intro fc0 hdf
    rw [hf, hdf, Option.or_some]
  · intro hdf
    rw [hf, hdf, Option.none_or]
  · intro hdf hnf
    rw [hf, hdf, hnf, Option.none_or]

/-- Witness for claim C3 at a concrete page without a header and a shared
navigation document providing one, and at a page owning its header. -/
theorem c3_nav_field_override_witness :
    (mergeNav pageGood navGood).header = some goodHeader ∧
    (mergeNav pageGoodOut navBogus).header = some goodHeader :=
  ⟨(c3_nav_field_override pageGood navGood).2.2.1 rfl,
   (c3_nav_field_override pageGoodOut navBogus).2.1 goodHeader rfl⟩

/-- Claim C5, counterexample: the name toString is not a theme key, yet the
lookup returns the truthy member the table inherits from Object.prototype,
not the default palette, so the universal fallback clause of the claim is
false of the program; the variant table behaves the same way at the name
valueOf. -/
theorem c5_prototype_counterexample :
    "toString" ∉ themes.map Prod.fst ∧
    getTheme (some "toString") = ThemeResult.inherited "toString" ∧
    getTheme (some "toString") ≠ ThemeResult.theme defaultTheme ∧
    getVariant (some "valueOf") = VariantResult.inherited "valueOf" :=
  ⟨by decide, rfl, by decide, rfl⟩

/-- Claim C5 (amended): every name of the fixed six-member theme set
resolves to the exact matching palette, the ocean background is the
documented hex value, and the absent input and every other string that is
not an inherited Object.prototype property name fall back to the default
palette (an Object.prototype property name instead yields the inherited
member); likewise for the five-member variant set. -/
theorem c5_theme_variant_tables :
    getTheme (some "default") = .theme defaultTheme ∧
    getTheme (some "ocean") = .theme oceanTheme ∧
    getTheme (some "sunset") = .theme sunsetTheme ∧
    getTheme (some "forest") = .theme forestTheme ∧
    getTheme (some "midnight") = .theme midnightTheme ∧
    getTheme (some "lavender") = .theme lavenderTheme ∧
    oceanTheme.colors.background = "#0C4A6E" ∧
    (∀ s : String, s ∉ themes.map Prod.fst → s ∉ objectPrototypeKeys →
      getTheme (some s) = .theme defaultTheme) ∧
    getTheme none = .theme defaultTheme ∧
    getVariant (some "default") = .variant defaultVariant ∧
    getVariant (some "dark") = .variant darkVariant ∧
    getVariant (some "light") = .variant lightVariant ∧
    getVariant (some "gradient") = .variant gradientVariant ∧
    getVariant (some "outline") = .variant outlineVariant ∧
    (∀ s : String, s ∉ variants.map Prod.fst → s ∉ objectPrototypeKeys →
      getVariant (some s) = .variant defaultVariant) ∧
    getVariant none = .variant defaultVariant := by
  refine ⟨rfl, rfl, rfl, rfl, rfl, rfl, rfl, ?_, rfl,
    rfl, rfl, rfl, rfl, rfl, ?_, rfl⟩
  · intro s hs hp
    unfold getTheme
    cases hse : (s == "") with
    | true => simp [hse]
    | false =>
      simp [hse, lookupField_eq_none hs, hp]
  · intro s hs hp
    unfold getVariant
    cases hse : (s == "") with
    | true => simp [hse]
    | false =>
      simp [hse, lookupField_eq_none hs, hp]

/-- Witness for the amended claim C5 at a concrete unknown theme name and a
concrete unknown variant name, neither an Object.prototype property
name. -/
theorem c5_theme_variant_tables_witness :
    getTheme (some "nonexistent") = ThemeResult.theme defaultTheme ∧
    getVariant (some "neon") = VariantResult.variant defaultVariant :=
  ⟨c5_theme_variant_tables.2.2.2.2.2.2.2.1 "nonexistent" (by decide) (by decide),
   c5_theme_variant_tables.2.2.2.2.2.2.2.2.2.2.2.2.2.2.1 "neon"
     (by decide) (by decide)⟩

/-- Claim C10, counterexample: toString is not a registered entry, yet the
in operator on the registry object finds the inherited Object.prototype
member, so the validity test accepts it and resolution returns the truthy
inherited member without the unknown-component-type error, falsifying both
the membership clause and the failure clause of the claim. -/
theorem c10_prototype_counterexample :
    "toString" ∉ registryKeys ∧
    isValidComponentType "toString" = true ∧
    getComponent "toString" = .ok (RegistryHit.inherited "toString") :=
  ⟨by decide, rfl, rfl⟩

set_option maxRecDepth 4000 in
/-- Claim C10 (amended): registry resolution returns the renderable bound
to a registered type; a type that is neither registered nor an inherited
Object.prototype property name fails with the unknown component type error
listing every registered type name; isValidComponentType is the in
operator on the registry object, the membership test of the registry key
set extended by the inherited Object.prototype property names, true on
Hero and false on Testimonialz; an Object.prototype property name passes
the test and resolves to the truthy inherited member without an error. -/
theorem c10_registry_resolution :
    (∀ t r, lookupField ComponentRegistry t = some r →
      getComponent t = .ok (RegistryHit.renderable r)) ∧
    (∀ t, isValidComponentType t = false →
      getComponent t = .error (unknownTypeMsg t)) ∧
    (∀ t, isValidComponentType t =
      (registryKeys.contains t || objectPrototypeKeys.contains t)) ∧
    (∀ t, registryKeys.contains t = false → objectPrototypeKeys.contains t = true →
      isValidComponentType t = true ∧ getComponent t = .ok (RegistryHit.inherited t)) ∧
    isValidComponentType "Hero" = true ∧
    isValidComponentType "Testimonialz" = false ∧
    unknownTypeMsg "Testimonialz" =
      "Component type \"Testimonialz\" not found in registry. Available types: Hero, Services, Adventajes, Brands, Pricing, Header, Footer, FAQ, CallToAction, Testimonials, Stats, Steps, Team, ContactForm, Newsletter, ContentGrid, Features2, Content, LogoCloud, Comparison, Gallery" := by
  refine ⟨?_, ?_, ?_, ?_, rfl, rfl, rfl⟩
  · intro t r h
    unfold getComponent
    rw [h]
  · intro t h
    unfold isValidComponentType at h
    obtain ⟨h1, h2⟩ := Bool.or_eq_false_iff.mp h
    unfold getComponent
    cases hl : lookupField ComponentRegistry t with
    | none => simp [not_mem_of_contains_eq_false h2]
    | some c =>
      rw [hl] at h1
      exact Bool.noConfusion h1
  · intro t
    unfold isValidComponentType
    rw [lookupField_isSome_eq_contains]
    rfl
  · intro t hreg hproto
    constructor
    · unfold isValidComponentType
      rw [lookupField_isSome_eq_contains]
      show (registryKeys.contains t || objectPrototypeKeys.contains t) = true
      rw [hreg, hproto]
      rfl
    · unfold getComponent
      have hl : lookupField ComponentRegistry t = none := by
        cases hl0 : lookupField ComponentRegistry t with
        | none => rfl
        | some c =>
          have := lookupField_isSome_eq_contains ComponentRegistry t
          rw [hl0] at this
          exact absurd (hreg ▸ this.symm) Bool.noConfusion
      simp [hl, List.elem_iff.mp hproto]

/-- Witness for the amended claim C10 at the registered type Hero, the
unregistered type Testimonialz, and the inherited name constructor. -/
theorem c10_registry_resolution_witness :
    getComponent "Hero" = .ok (RegistryHit.renderable Renderable.Hero) ∧
    getComponent "Testimonialz" = .error (unknownTypeMsg "Testimonialz") ∧
    getComponent "constructor" = .ok (RegistryHit.inherited "constructor") :=
  ⟨c10_registry_resolution.1 "Hero" Renderable.Hero rfl,
   c10_registry_resolution.2.1 "Testimonialz" rfl,
   (c10_registry_resolution.2.2.2.1 "constructor" (by decide) (by decide)).2⟩

/-- Claim C2: for every components entry of a page whose shared style merge
completed, a page-set style is left exactly unchanged, an absent style is
filled with exactly the variant and theme the shared componentThemes binds
to the entry type when that binding carries a truthy variant or theme, and
the entry stays without an explicit style when neither the page nor the
shared document supplies one. -/
theorem c2_shared_style_merge {d : PageData} {tc : ThemeConfig} {d2 : PageData}
    {cs : List PageComponent} (h : applySharedTheme d tc = .ok d2)
    (hcs : d.components = some cs) :
    ∃ cs2, d2.components = some cs2 ∧ List.Forall₂ (styleMergeSpec tc) cs cs2 := by
  rcases applySharedTheme_cases h with ⟨hc, hd⟩ | ⟨hc, hct, hd⟩ |
    ⟨comps, comps2, cts, hc, hct, hm, hd⟩
  · rw [hcs] at hc
    exact Option.noConfusion hc
  · refine ⟨cs, by rw [hd, hcs], ?_⟩
    exact List.forall₂_same.mpr (fun x _ => styleMergeSpec_self_of_noCT hct x)
  · cases hc.symm.trans hcs
    refine ⟨comps2, by rw [hd], ?_⟩
    exact mapExcept_forall2
      (fun c c2 (hcc : applyToComponent cts c = .ok c2) =>
        applyToComponent_spec hct hcc) hm

/-- Witness for claim C2 at a concrete page with one style-free Hero entry
and a shared theme document binding the dark variant to Hero. -/
theorem c2_shared_style_merge_witness :
    ∃ cs2, ({ pageGood with components := some [heroStyled] } : PageData).components
        = some cs2 ∧
      List.Forall₂ (styleMergeSpec themeWithCT) [heroCfg] cs2 :=
  @c2_shared_style_merge pageGood themeWithCT
    { pageGood with components := some [heroStyled] } [heroCfg] rfl rfl

/-- Claim C6, counterexample: at the Object.prototype property name
toString the lookup returns the inherited member, whose missing colors and
classes fields make the derived accessors raise the JavaScript TypeError,
so the subsystem is not total and does raise errors for some inputs. -/
theorem c6_prototype_counterexample :
    getTheme (some "toString") = ThemeResult.inherited "toString" ∧
    getThemeStyles (some "toString") =
      .error "Cannot read properties of undefined (reading 'background')" ∧
    getThemeStyleString (some "toString") =
      .error "Cannot read properties of undefined (reading 'background')" ∧
    getThemeBackground (some "toString") =
      .error "Cannot read properties of undefined (reading 'backgroundGradient')" ∧
    getVariantClasses (some "toString") ClassElement.container =
      .error "Cannot read properties of undefined (reading 'container')" ∧
    mergeVariantClasses (some "toString") ClassElement.container (some "px-4") =
      .error "Cannot read properties of undefined (reading 'container')" :=
  ⟨rfl, rfl, rfl, rfl, rfl, rfl⟩

/-- Claim C6 (amended): for every theme or variant name that is absent, a
table key or outside the inherited Object.prototype property names, the
resolvers return an entry of the fixed tables and every derived accessor
returns a value without an error: the style map is non-empty, the style
string is built from it, the background accessor prefers a truthy gradient
and otherwise returns the solid background color, and class merging
returns the variant classes when no custom classes are supplied and the
appended trim otherwise; at an inherited property name the accessors
instead raise TypeErrors. -/
theorem c6_style_resolution_total :
    (∀ n, protoSafe (themes.map Prod.fst) n →
      ∃ t, getTheme n = .theme t ∧ t ∈ themes.map Prod.snd) ∧
    (∀ n, protoSafe (variants.map Prod.fst) n →
      ∃ v, getVariant n = .variant v ∧ v ∈ variants.map Prod.snd) ∧
    (∀ n t g, getTheme n = .theme t → t.colors.backgroundGradient = some g →
      g ≠ "" → getThemeBackground n = .ok g) ∧
    (∀ n t, getTheme n = .theme t → t.colors.backgroundGradient = none →
      getThemeBackground n = .ok t.colors.background) ∧
    (∀ n, protoSafe (themes.map Prod.fst) n →
      ∃ styles, getThemeStyles n = .ok styles ∧ styles ≠ []) ∧
    (∀ n styles, getThemeStyles n = .ok styles →
      getThemeStyleString n =
        .ok (String.intercalate "; " (styles.map (fun p => p.1 ++ ": " ++ p.2)))) ∧
    (∀ n el vc, getVariantClasses n el = .ok vc →
      mergeVariantClasses n el none = .ok vc) ∧
    (∀ n el, protoSafe (variants.map Prod.fst) n →
      ∃ vc, getVariantClasses n el = .ok vc) ∧
    (∀ n el c vc, c ≠ "" → getVariantClasses n el = .ok vc →
      mergeVariantClasses n el (some c) = .ok ((vc ++ " " ++ c).trim)) := by
  refine ⟨fun n h => getTheme_safe h, fun n h => getVariant_safe h,
    ?_, ?_, ?_, ?_, ?_, ?_, ?_⟩
  · intro n t g ht hg hne
    have hgb : (g == "") = false := beq_eq_false_iff_ne.mpr hne
    simp only [getThemeBackground, ht, hg, hgb, Bool.false_eq_true, if_false]
  · intro n t ht hg
    simp only [getThemeBackground, ht, hg]
  · intro n h
    obtain ⟨t, ht, _⟩ := getTheme_safe h
    cases hst : getThemeStyles n with
    | error e =>
      exfalso
      simp only [getThemeStyles, ht] at hst
      exact Except.noConfusion hst
    | ok styles =>
      refine ⟨styles, rfl, ?_⟩
      simp only [getThemeStyles, ht] at hst
      cases hst
      simp
  · intro n styles h
    simp only [getThemeStyleString, h]
  · intro n el vc h
    simp only [mergeVariantClasses, h]
  · intro n el h
    obtain ⟨v, hv, _⟩ := getVariant_safe h
    cases hvc : getVariantClasses n el with
    | error e =>
      exfalso
      simp only [getVariantClasses, hv] at hvc
      exact Except.noConfusion hvc
    | ok vc => exact ⟨vc, rfl⟩
  · intro n el c vc hne h
    have hcb : (c == "") = false := beq_eq_false_iff_ne.mpr hne
    simp only [mergeVariantClasses, h, hcb, Bool.false_eq_true, if_false]

/-- Witness for the amended claim C6 at a concrete unknown theme name, the
ocean gradient, the gradient-free default theme, and a concrete custom
class merge. -/
theorem c6_style_resolution_total_witness :
    (∃ t, getTheme (some "unknown-name") = ThemeResult.theme t ∧
      t ∈ themes.map Prod.snd) ∧
    getThemeBackground (some "ocean") =
      .ok "linear-gradient(135deg, #0C4A6E 0%, #0369A1 100%)" ∧
    getThemeBackground none = .ok "#FFFFFF" ∧
    mergeVariantClasses (some "dark") ClassElement.container (some "px-4") =
      .ok (("bg-gray-900 px-4").trim) :=
  ⟨c6_style_resolution_total.1 (some "unknown-name") (Or.inr (by decide)),
   c6_style_resolution_total.2.2.1 (some "ocean") oceanTheme
     "linear-gradient(135deg, #0C4A6E 0%, #0369A1 100%)" rfl rfl (by decide),
   c6_style_resolution_total.2.2.2.1 none defaultTheme rfl rfl,
   c6_style_resolution_total.2.2.2.2.2.2.2.2 (some "dark")
     ClassElement.container "px-4" "bg-gray-900" (by decide) rfl⟩

/-- Claim C7: feeding a successful page load result back through the load
with the same shared reads returns it unchanged: the header and footer
merge and the shared per-type style application are idempotent because
page-level values win on the second pass. -/
theorem c7_pipeline_idempotent (name : String) (pageRead : Except String PageData)
    (navRead : Except String SharedNav) (themeRead : Except String ThemeConfig)
    (d : PageData) (h : getPageData name pageRead navRead themeRead = .ok d) :
    getPageData name (.ok d) navRead themeRead = .ok d := by
  obtain ⟨data, hpr, ha, hv⟩ := getPageDataCore_ok (getPageData_ok h)
  have hpres := applySharedTheme_preserves ha
  have hdh : d.header = data.header.or (getSharedNavigation navRead).header :=
    hpres.2.2.1
  have hdf : d.footer = data.footer.or (getSharedNavigation navRead).footer :=
    hpres.2.2.2
  have h1 : d.header.or (getSharedNavigation navRead).header = d.header := by
    rw [hdh]
    exact or_absorb _ _
  have h2 : d.footer.or (getSharedNavigation navRead).footer = d.footer := by
    rw [hdf]
    exact or_absorb _ _
  have hm : mergeNav d (getSharedNavigation navRead) = d := by
    unfold mergeNav
    rw [h1, h2]
  have ha2 : applySharedTheme d (getSharedTheme themeRead) = .ok d :=
    applySharedTheme_fix ha
  exact getPageDataCore_of_parts rfl (by rw [hm]; exact ha2) hv

/-- Witness for claim C7 at a concrete successful load: running the load on
its own output returns the output again. -/
theorem c7_pipeline_idempotent_witness :
    getPageData "home" (.ok pageGood) (.ok navGood) (.ok themeWithCT) =
      .ok pageGoodOut ∧
    getPageData "home" (.ok pageGoodOut) (.ok navGood) (.ok themeWithCT) =
      .ok pageGoodOut :=
  ⟨rfl, c7_pipeline_idempotent "home" (.ok pageGood) (.ok navGood) (.ok themeWithCT)
    pageGoodOut rfl⟩

/-- Claim C8: components entries disabled with a false enabled flag are
treated identically to enabled entries: reassigning every enabled flag of a
page changes no validation outcome, and a successful load returns the same
document with the flags reassigned the same way, so disabled entries are
kept, not stripped, and are validated like any other entry. -/
theorem c8_enabled_flag_inert (name : String) (d : PageData) (e : Option Bool) :
    (validatePageData (pageWithEnabled e d) name = validatePageData d name) ∧
    (∀ (navRead : Except String SharedNav) (themeRead : Except String ThemeConfig)
       (out : PageData),
      getPageData name (.ok d) navRead themeRead = .ok out →
      getPageData name (.ok (pageWithEnabled e d)) navRead themeRead =
        .ok (pageWithEnabled e out)) := by
  refine ⟨validate_pageWithEnabled d name e, ?_⟩
  intro navRead themeRead out h
  obtain ⟨data, hpr, ha, hv⟩ := getPageDataCore_ok (getPageData_ok h)
  cases hpr
  have hmerge : mergeNav (pageWithEnabled e d) (getSharedNavigation navRead)
      = pageWithEnabled e (mergeNav d (getSharedNavigation navRead)) := rfl
  have ha2 : applySharedTheme
      (pageWithEnabled e (mergeNav d (getSharedNavigation navRead)))
      (getSharedTheme themeRead) = .ok (pageWithEnabled e out) := by
    rw [applySharedTheme_pageWithEnabled, ha]
    rfl
  have hv2 : validatePageData (pageWithEnabled e out) name = .ok () := by
    rw [validate_pageWithEnabled]
    exact hv
  exact getPageDataCore_of_parts rfl (by rw [hmerge]; exact ha2) hv2

/-- Witness for claim C8: disabling the sole entry of a concrete page does
not change the validation error of its missing config, and disabling the
entries of a concrete successful load disables exactly the output. -/
theorem c8_enabled_flag_inert_witness :
    validatePageData (pageWithEnabled (some false) pageBadCfg) "landing" =
      validatePageData pageBadCfg "landing" ∧
    getPageData "home" (.ok (pageWithEnabled (some false) pageGood))
      (.ok navGood) (.ok themeWithCT) =
      .ok (pageWithEnabled (some false) pageGoodOut) :=
  ⟨(c8_enabled_flag_inert "landing" pageBadCfg (some false)).1,
   (c8_enabled_flag_inert "home" pageGood (some false)).2
     (.ok navGood) (.ok themeWithCT) pageGoodOut rfl⟩

/-- Claim C9: a successful page load returns the parsed page document with
meta and layout unchanged and the components list of the same length and
order, every entry keeping its type, id, enabled flag, config presence,
config layout and config content, and keeping its whole config whenever the
page set an explicit style. -/
theorem c9_loader_frame {name : String} {d : PageData}
    {navRead : Except String SharedNav} {themeRead : Except String ThemeConfig}
    {out : PageData}
    (h : getPageData name (.ok d) navRead themeRead = .ok out) :
    out.meta = d.meta ∧ out.layout = d.layout ∧
    ∃ cs cs2, d.components = some cs ∧ out.components = some cs2 ∧
      List.Forall₂ entryFramePreserved cs cs2 := by
  obtain ⟨data, hpr, ha, hv⟩ := getPageDataCore_ok (getPageData_ok h)
  cases hpr
  have hpres := applySharedTheme_preserves ha
  have hmeta : out.meta = d.meta := hpres.1
  have hlay : out.layout = d.layout := hpres.2.1
  refine ⟨hmeta, hlay, ?_⟩
  rcases applySharedTheme_cases ha with ⟨hc, hd⟩ | ⟨hc, hd2⟩ |
    ⟨comps, comps2, cts, hc, hct, hm, hd⟩
  · exfalso
    have hoc : out.components = none := by rw [hd]; exact hc
    have hiss := validate_ok_components hv
    rw [hoc] at hiss
    exact Bool.noConfusion hiss
  · obtain ⟨hct, hd⟩ := hd2
    have hc2 : d.components.isSome = true := hc
    cases hcs : d.components with
    | none =>
      rw [hcs] at hc2
      exact Bool.noConfusion hc2
    | some cs =>
      have hoc : out.components = some cs := by
        rw [hd]
        exact hcs
      exact ⟨cs, cs, rfl, hoc,
        List.forall₂_same.mpr (fun x _ => entryFramePreserved_refl x)⟩
  · have hc2 : d.components = some comps := hc
    refine ⟨comps, comps2, hc2, by rw [hd], ?_⟩
    exact mapExcept_forall2
      (fun c c2 (hcc : applyToComponent cts c = .ok c2) =>
        applyToComponent_frame hcc) hm

/-- Witness for claim C9 at a concrete successful load. -/
theorem c9_loader_frame_witness :
    pageGoodOut.meta = pageGood.meta ∧ pageGoodOut.layout = pageGood.layout ∧
    ∃ cs cs2, pageGood.components = some cs ∧ pageGoodOut.components = some cs2 ∧
      List.Forall₂ entryFramePreserved cs cs2 :=
  @c9_loader_frame "home" pageGood (.ok navGood) (.ok themeWithCT) pageGoodOut rfl

end Luna
